import Mathlib

/-!
Shallow embedding of the heuristic schedule-suggestion / productivity-scoring
engine of the repository (src/services/aiService.js and src/utils/timeUtils.js).

Numeric model: the JavaScript numbers that appear here (decimal hours such as
12.5, small weighted sums) are modelled by ℚ; `Math.round` is modelled by
`jsRound q = ⌊q + 1/2⌋`, which is the rounding JavaScript performs on finite
numbers.  The one place where a non-finite JavaScript number can arise is the
division `score / totalTime` in `calculateProductivityScore` when
`totalTime = 0` (JavaScript produces NaN or ±Infinity there); that function
therefore returns `Option ℤ`, with `none` standing for a non-finite result.
-/

inductive Category where
  | work
  | meeting
  | break'
  | personal
  | exercise
  | learning
deriving DecidableEq, Repr

/-- A time block as the engine reads it: `{title, category, startTime, endTime,
description}`, times in decimal hours. -/
structure TimeBlock where
  title : String
  category : Category
  startTime : ℚ
  endTime : ℚ
  description : String
deriving DecidableEq, Repr

/-- A schedule gap `{start, end, duration}` as built by `findScheduleGaps`. -/
structure Gap where
  start : ℚ
  «end» : ℚ
  duration : ℚ
deriving DecidableEq, Repr

inductive SuggestionType where
  | optimization
  | timeblocking
  | balance
  | productivity
deriving DecidableEq, Repr

/-- A suggestion record `{type, title, description, blocks, reasons}`. -/
structure Suggestion where
  type : SuggestionType
  title : String
  description : String
  blocks : List TimeBlock
  reasons : List String
deriving DecidableEq, Repr

/-- JavaScript `Math.round` on a finite number: round half toward +∞. -/
def jsRound (q : ℚ) : ℤ := ⌊q + 1/2⌋

/-- The `<` comparison of the possibly-NaN score against a constant, as in
`analysis.productivityScore < 70`: any comparison against NaN is false. -/
def jsLtNum (x : Option ℤ) (c : ℤ) : Bool :=
  match x with
  | none => false
  | some v => decide (v < c)

/-- Printing of the possibly-NaN score inside a template string. -/
def jsNumToString (x : Option ℤ) : String :=
  match x with
  | none => "NaN"
  | some v => toString v

/-- timeUtils.js `calculateDuration(startTime, endTime) = endTime - startTime`. -/
def calculateDuration (startTime endTime : ℚ) : ℚ := endTime - startTime

/-- The category bonus table of aiService.js `calculateProductivityScore`
(work 5, learning 7, exercise 8, break 3, meeting 4, personal 2; the JS
default `|| 3` is unreachable because every category of the data model is in
the table and has a non-zero bonus). -/
def bonuses : Category → ℚ
  | Category.work => 5
  | Category.learning => 7
  | Category.exercise => 8
  | Category.break' => 3
  | Category.meeting => 4
  | Category.personal => 2

/-- The contribution of one block to the accumulated score of
aiService.js `calculateProductivityScore`: base `duration * 10`, the category
bonus, the peak-focus bonus for work blocks with
`startTime >= 9 && startTime <= 11`, minus the long-block penalty. -/
def blockScore (b : TimeBlock) : ℚ :=
  let duration := b.endTime - b.startTime
  duration * 10 + duration * bonuses b.category
    + (if b.category = Category.work ∧ 9 ≤ b.startTime ∧ b.startTime ≤ 11
        then duration * 3 else 0)
    - (if 4 < duration then (duration - 4) * 5 else 0)

/-- The accumulated `score` of aiService.js `calculateProductivityScore`. -/
def rawScore (l : List TimeBlock) : ℚ := l.foldl (fun s b => s + blockScore b) 0

/-- The accumulated `totalTime` of aiService.js `calculateProductivityScore`:
`blocks.reduce((sum, b) => sum + (b.endTime - b.startTime), 0)`. -/
def totalTime (l : List TimeBlock) : ℚ :=
  l.foldl (fun s b => s + (b.endTime - b.startTime)) 0

/-- aiService.js `calculateProductivityScore`.  Empty input returns 0;
otherwise the result is `Math.min(100, Math.round(score / totalTime * 10))`.
When `totalTime = 0` the JavaScript division produces a non-finite number
(NaN when the numerator is also 0, ±Infinity otherwise), modelled as `none`. -/
def calculateProductivityScore (blocks : List TimeBlock) : Option ℤ :=
  if blocks.length = 0 then some 0
  else if totalTime blocks = 0 then none
  else some (min 100 (jsRound (rawScore blocks / totalTime blocks * 10)))

/-- The per-block score accumulation of timeUtils.js `getProductivityScore`
(first `forEach`): base `duration * 10` plus the bonuses for the work, break,
exercise and learning categories (no bonus for meeting or personal, and no
peak-hours bonus in this implementation). -/
def tuBaseContrib (b : TimeBlock) : ℚ :=
  let duration := calculateDuration b.startTime b.endTime
  duration * 10
    + (if b.category = Category.work then duration * 5 else 0)
    + (if b.category = Category.break' then duration * 3 else 0)
    + (if b.category = Category.exercise then duration * 8 else 0)
    + (if b.category = Category.learning then duration * 7 else 0)

/-- The long-block penalty of timeUtils.js `getProductivityScore`
(second `forEach`). -/
def tuPenalty (b : TimeBlock) : ℚ :=
  let duration := calculateDuration b.startTime b.endTime
  if 4 < duration then (duration - 4) * 5 else 0

/-- The accumulated `totalTime` of timeUtils.js `getProductivityScore`. -/
def tuTotalTime (blocks : List TimeBlock) : ℚ :=
  blocks.foldl (fun t b => t + calculateDuration b.startTime b.endTime) 0

/-- The score after the first `forEach` of timeUtils.js `getProductivityScore`. -/
def tuScore1 (blocks : List TimeBlock) : ℚ :=
  blocks.foldl (fun s b => s + tuBaseContrib b) 0

/-- The score after the second (penalty) `forEach` of timeUtils.js
`getProductivityScore`. -/
def tuScore (blocks : List TimeBlock) : ℚ :=
  blocks.foldl (fun s b => s - tuPenalty b) (tuScore1 blocks)

/-- timeUtils.js `getProductivityScore`: the legacy scorer.  Final value is
`Math.min(100, Math.max(0, Math.round(score / Math.max(totalTime, 1) * 10)))`;
the `Math.max(totalTime, 1)` guard keeps the division finite. -/
def getProductivityScore (blocks : List TimeBlock) : ℤ :=
  if blocks.length = 0 then 0
  else min 100 (max 0 (jsRound (tuScore blocks / max (tuTotalTime blocks) 1 * 10)))

/-- The stable ascending sort `[...blocks].sort((a, b) => a.startTime - b.startTime)`
of `findScheduleGaps`, modelled by the stable insertion sort on `startTime ≤`. -/
def sortByStart (l : List TimeBlock) : List TimeBlock :=
  List.insertionSort (fun a b => a.startTime ≤ b.startTime) l

/-- The scan of `findScheduleGaps` over the sorted blocks: for each adjacent
pair, records a gap when `nextStart - currentEnd >= 1`. -/
def gapsOf : List TimeBlock → List Gap
  | a :: b :: rest =>
      (if 1 ≤ b.startTime - a.endTime
        then [⟨a.endTime, b.startTime, b.startTime - a.endTime⟩] else [])
        ++ gapsOf (b :: rest)
  | _ => []

/-- aiService.js `findScheduleGaps`. -/
def findScheduleGaps (blocks : List TimeBlock) : List Gap :=
  gapsOf (sortByStart blocks)

/-- The analysis record produced by aiService.js `analyzeSchedule`. -/
structure Analysis where
  workBlocks : List TimeBlock
  breakBlocks : List TimeBlock
  meetingBlocks : List TimeBlock
  gaps : List Gap
  totalWorkTime : ℚ
  hasGaps : Bool
  needsEnergyOptimization : Bool
  productivityScore : Option ℤ
  hasLongWorkBlocks : Bool
deriving DecidableEq, Repr

/-- aiService.js `analyzeSchedule`. -/
def analyzeSchedule (blocks : List TimeBlock) : Analysis :=
  let workBlocks := blocks.filter (fun b => b.category = Category.work)
  let breakBlocks := blocks.filter (fun b => b.category = Category.break')
  let meetingBlocks := blocks.filter (fun b => b.category = Category.meeting)
  let gaps := findScheduleGaps blocks
  let totalWorkTime : ℚ := workBlocks.foldl (fun s b => s + (b.endTime - b.startTime)) 0
  let hasLongWorkBlocks := workBlocks.any (fun b => decide (4 < b.endTime - b.startTime))
  let needsEnergyOptimization := decide (8 < totalWorkTime) || hasLongWorkBlocks
  { workBlocks := workBlocks
    breakBlocks := breakBlocks
    meetingBlocks := meetingBlocks
    gaps := gaps
    totalWorkTime := totalWorkTime
    hasGaps := decide (0 < gaps.length)
    needsEnergyOptimization := needsEnergyOptimization
    productivityScore := calculateProductivityScore blocks
    hasLongWorkBlocks := hasLongWorkBlocks }

/-- aiService.js `generateTimeBlockingSuggestion`.  `largestGap` is the
`reduce` over the gaps with `gaps[0]` as initial value (the reduce visits
every element, the first element included). -/
def generateTimeBlockingSuggestion (analysis : Analysis) : Suggestion :=
  let largestGap := analysis.gaps.foldl
    (fun m gap => if gap.duration > m.duration then gap else m)
    (analysis.gaps.headD ⟨0, 0, 0⟩)
  let suggestions :=
    (if 2 ≤ largestGap.duration then
      [⟨"Deep Work Block", Category.work, largestGap.start, largestGap.start + 2,
        "Use this time for focused, uninterrupted work"⟩]
     else []) ++
    (if 3 ≤ largestGap.duration then
      [⟨"Learning Time", Category.learning, largestGap.start + 2, largestGap.start + 3,
        "Dedicated time for skill development"⟩]
     else [])
  { type := SuggestionType.optimization
    title := "Optimize Your Schedule"
    description := "You have a " ++ toString (jsRound largestGap.duration)
      ++ "-hour gap in your schedule that could be used more productively."
    blocks := suggestions
    reasons := ["Leverages your natural energy patterns",
                "Creates dedicated focus time",
                "Improves overall productivity",
                "Reduces context switching"] }

/-- aiService.js `generateBreakSuggestion`: the proposed break starts half an
hour after the end of `workBlocks[0]`, the first work block in input order
(or at 12 when there is none). -/
def generateBreakSuggestion (analysis : Analysis) : Suggestion :=
  let breakTime :=
    match analysis.workBlocks with
    | [] => (12 : ℚ)
    | w :: _ => w.endTime + 0.5
  { type := SuggestionType.timeblocking
    title := "Add Strategic Breaks"
    description := "Taking regular breaks improves focus and prevents burnout. Consider adding break time between work blocks."
    blocks := [⟨"Coffee Break", Category.break', breakTime, breakTime + 0.5,
      "Short break to recharge and refocus"⟩]
    reasons := ["Improves focus and concentration",
                "Prevents decision fatigue",
                "Boosts creativity and problem-solving",
                "Maintains consistent energy levels"] }

/-- aiService.js `generateEnergySuggestion`. -/
def generateEnergySuggestion (analysis : Analysis) : Suggestion :=
  let suggestions :=
    (if 8 < analysis.totalWorkTime then
      [⟨"Energy Recharge", Category.break', 14, 15,
        "Extended break to maintain energy throughout the day"⟩]
     else []) ++
    (if analysis.hasLongWorkBlocks then
      [⟨"Micro Break", Category.break', 11, 11.25,
        "Short break to maintain focus during long work sessions"⟩]
     else [])
  { type := SuggestionType.balance
    title := "Optimize Your Energy"
    description := "Your schedule could benefit from better energy management to maintain peak performance."
    blocks := suggestions
    reasons := ["Prevents afternoon energy crashes",
                "Maintains consistent performance",
                "Reduces stress and burnout",
                "Improves decision-making quality"] }

/-- aiService.js `generateProductivitySuggestion`. -/
def generateProductivitySuggestion (analysis : Analysis) : Suggestion :=
  { type := SuggestionType.productivity
    title := "Boost Your Productivity"
    description := "Your current productivity score is "
      ++ jsNumToString analysis.productivityScore
      ++ "/100. Here are some suggestions to improve it."
    blocks := [⟨"Morning Deep Work", Category.work, 9, 11,
                "Peak focus hours for your most important tasks"⟩,
               ⟨"Exercise Break", Category.exercise, 18, 19,
                "Physical activity to boost energy and mental clarity"⟩]
    reasons := ["Aligns with natural energy rhythms",
                "Creates work-life balance",
                "Improves focus and concentration",
                "Builds sustainable habits"] }

/-- aiService.js `generateDailyPlanningSuggestion`: the fixed 4-block
ideal-day template for an empty schedule. -/
def generateDailyPlanningSuggestion : Suggestion :=
  { type := SuggestionType.timeblocking
    title := "Plan Your Perfect Day"
    description := "Start with a well-structured daily schedule that balances work, breaks, and personal time."
    blocks := [⟨"Morning Deep Work", Category.work, 9, 11,
                "Focus on your most important tasks when energy is highest"⟩,
               ⟨"Lunch Break", Category.break', 12, 13,
                "Nourish your body and mind with a proper lunch break"⟩,
               ⟨"Afternoon Tasks", Category.work, 14, 16,
                "Handle meetings and collaborative work"⟩,
               ⟨"Personal Time", Category.personal, 19, 20,
                "Time for hobbies, family, or relaxation"⟩]
    reasons := ["Follows proven productivity patterns",
                "Balances focused work with breaks",
                "Respects natural energy cycles",
                "Creates sustainable daily rhythm"] }

/-- aiService.js `getFallbackSuggestions`: the five rule checks, pushed in
source order (the initial simulated delay and the unused `currentHour`
clock read have no effect on the result and are dropped). -/
def getFallbackSuggestions (existingBlocks : List TimeBlock) : List Suggestion :=
  let analysis := analyzeSchedule existingBlocks
  (if analysis.hasGaps && decide (0 < analysis.gaps.length)
    then [generateTimeBlockingSuggestion analysis] else []) ++
  (if decide (0 < analysis.workBlocks.length) && decide (analysis.breakBlocks.length < 2)
    then [generateBreakSuggestion analysis] else []) ++
  (if analysis.needsEnergyOptimization
    then [generateEnergySuggestion analysis] else []) ++
  (if jsLtNum analysis.productivityScore 70
    then [generateProductivitySuggestion analysis] else []) ++
  (if existingBlocks.length = 0
    then [generateDailyPlanningSuggestion] else [])

/-- The peak-focus bonus term of `blockScore`, isolated: granted exactly to
work blocks whose `startTime` lies in the closed range `[9, 11]` (the source
condition is `startTime >= 9 && startTime <= 11`). -/
def peakFocusBonus (b : TimeBlock) : ℚ :=
  if b.category = Category.work ∧ 9 ≤ b.startTime ∧ b.startTime ≤ 11
    then (b.endTime - b.startTime) * 3 else 0

/-- `blockScore` with the peak-focus line removed: the baseline against which
the presence of the bonus is stated. -/
def blockScoreNoPeak (b : TimeBlock) : ℚ :=
  let duration := b.endTime - b.startTime
  duration * 10 + duration * bonuses b.category
    - (if 4 < duration then (duration - 4) * 5 else 0)

/-- The accumulated score with the peak-focus bonus removed. -/
def rawScoreNoPeak (l : List TimeBlock) : ℚ :=
  l.foldl (fun s b => s + blockScoreNoPeak b) 0

/-- Modelled from the spec's words, for comparison only (claim C5): the
per-block score with the peak bonus granted on the half-open range `[9, 11)`
instead of the closed range the source uses. -/
def blockScoreHalfOpenPeak (b : TimeBlock) : ℚ :=
  let duration := b.endTime - b.startTime
  duration * 10 + duration * bonuses b.category
    + (if b.category = Category.work ∧ 9 ≤ b.startTime ∧ b.startTime < 11
        then duration * 3 else 0)
    - (if 4 < duration then (duration - 4) * 5 else 0)

/-- The accumulated score of the half-open-peak variant. -/
def rawScoreHalfOpenPeak (l : List TimeBlock) : ℚ :=
  l.foldl (fun s b => s + blockScoreHalfOpenPeak b) 0

/-- The scorer as the spec's `[9, 11)` wording would have it (claim C5). -/
def calculateProductivityScoreHalfOpenPeak (blocks : List TimeBlock) : Option ℤ :=
  if blocks.length = 0 then some 0
  else if totalTime blocks = 0 then none
  else some (min 100 (jsRound (rawScoreHalfOpenPeak blocks / totalTime blocks * 10)))

/-- State-passing rendering of `findScheduleGaps` for the frame property: the
store is the caller's array; the spread `[...blocks]` copies it, the in-place
`Array.prototype.sort` is applied to that copy only, and the loop only reads,
so the store handed back to the caller is the input itself. -/
def findScheduleGapsSt (blocks : List TimeBlock) : List Gap × List TimeBlock :=
  let copy := blocks
  let sorted := List.insertionSort (fun a b => a.startTime ≤ b.startTime) copy
  (gapsOf sorted, blocks)

/-- State-passing rendering of `calculateProductivityScore`: both `reduce` and
`forEach` only read the caller's array. -/
def calculateProductivityScoreSt (blocks : List TimeBlock) : Option ℤ × List TimeBlock :=
  (calculateProductivityScore blocks, blocks)

/-- State-passing rendering of `getFallbackSuggestions`: `analyzeSchedule`
only filters and folds, and every generator builds fresh records. -/
def getFallbackSuggestionsSt (blocks : List TimeBlock) : List Suggestion × List TimeBlock :=
  (getFallbackSuggestions blocks, blocks)

/-- The three-block scenario of the spec: work 9-11, break 12-12.5, work 14-18. -/
def ex6 : List TimeBlock :=
  [⟨"Morning Work", Category.work, 9, 11, ""⟩,
   ⟨"Break", Category.break', 12, 12.5, ""⟩,
   ⟨"Afternoon Work", Category.work, 14, 18, ""⟩]

/-- Two work blocks with the later one first in input order. -/
def l9a : List TimeBlock :=
  [⟨"Late Work", Category.work, 14, 16, ""⟩, ⟨"Early Work", Category.work, 9, 11, ""⟩]

/-- The same two work blocks in chronological input order. -/
def l9b : List TimeBlock :=
  [⟨"Early Work", Category.work, 9, 11, ""⟩, ⟨"Late Work", Category.work, 14, 16, ""⟩]

/-- A work block starting exactly at hour 11 next to a long personal block
(the long block keeps the final score below the 100 cap, so the bonus is
visible in the output). -/
def exC5 : List TimeBlock :=
  [⟨"Late Morning Work", Category.work, 11, 12, ""⟩,
   ⟨"Long Personal Day", Category.personal, 6, 22, ""⟩]

/-- A single long meeting: the two scorers weight it differently. -/
def exMeeting : List TimeBlock := [⟨"Long Meeting", Category.meeting, 6, 22, ""⟩]

/-!
## Helper lemmas
-/

/-- Characterisation of `jsRound` at a value squeezed between two integers. -/
theorem jsRound_eq {q : ℚ} {n : ℤ} (h1 : (n : ℚ) ≤ q + 1/2) (h2 : q + 1/2 < (n : ℚ) + 1) :
    jsRound q = n := by
  unfold jsRound
  exact Int.floor_eq_iff.mpr ⟨h1, h2⟩

/-- Rounding a nonnegative number is nonnegative. -/
theorem jsRound_nonneg {q : ℚ} (h : 0 ≤ q) : 0 ≤ jsRound q := by
  unfold jsRound
  have hc : ((0 : ℤ) : ℚ) ≤ q + 1/2 := by push_cast; linarith
  exact Int.le_floor.mpr hc

/-- An additive fold is the initial value plus the sum of the contributions. -/
theorem foldl_add_map (f : TimeBlock → ℚ) (l : List TimeBlock) :
    ∀ z : ℚ, List.foldl (fun s b => s + f b) z l = z + (l.map f).sum := by
  induction l with
  | nil => intro z; simp
  | cons a t ih => intro z; simp [ih, add_assoc]

/-- A subtractive fold is the initial value minus the sum of the contributions. -/
theorem foldl_sub_map (f : TimeBlock → ℚ) (l : List TimeBlock) :
    ∀ z : ℚ, List.foldl (fun s b => s - f b) z l = z - (l.map f).sum := by
  induction l with
  | nil => intro z; simp
  | cons a t ih => intro z; simp [ih]; ring

theorem sum_map_congr {f g : TimeBlock → ℚ} :
    ∀ l : List TimeBlock, (∀ b ∈ l, f b = g b) → (l.map f).sum = (l.map g).sum := by
  intro l
  induction l with
  | nil => intro _; rfl
  | cons a t ih =>
    intro h
    simp only [List.map_cons, List.sum_cons, h a (by simp), ih fun b hb => h b (by simp [hb])]

theorem sum_map_sub (f g : TimeBlock → ℚ) :
    ∀ l : List TimeBlock, (l.map fun b => f b - g b).sum = (l.map f).sum - (l.map g).sum := by
  intro l
  induction l with
  | nil => simp
  | cons a t ih => simp [ih]; ring

theorem sum_map_add (f g : TimeBlock → ℚ) :
    ∀ l : List TimeBlock, (l.map fun b => f b + g b).sum = (l.map f).sum + (l.map g).sum := by
  intro l
  induction l with
  | nil => simp
  | cons a t ih => simp [ih]; ring

theorem rawScore_eq_sum (l : List TimeBlock) : rawScore l = (l.map blockScore).sum := by
  unfold rawScore; rw [foldl_add_map]; ring

theorem rawScoreNoPeak_eq_sum (l : List TimeBlock) :
    rawScoreNoPeak l = (l.map blockScoreNoPeak).sum := by
  unfold rawScoreNoPeak; rw [foldl_add_map]; ring

theorem totalTime_eq_sum (l : List TimeBlock) :
    totalTime l = (l.map fun b => b.endTime - b.startTime).sum := by
  unfold totalTime; rw [foldl_add_map (fun b => b.endTime - b.startTime)]; ring

theorem tuScore_eq_sum (l : List TimeBlock) :
    tuScore l = (l.map tuBaseContrib).sum - (l.map tuPenalty).sum := by
  unfold tuScore tuScore1
  rw [foldl_sub_map, foldl_add_map]
  ring

/-- Both implementations accumulate the same total duration. -/
theorem tuTotalTime_eq (l : List TimeBlock) : tuTotalTime l = totalTime l := rfl

theorem bonuses_ge_two (c : Category) : 2 ≤ bonuses c := by
  cases c <;> norm_num [bonuses]

theorem blockScore_nonneg (b : TimeBlock) (h : 0 ≤ b.endTime - b.startTime) :
    0 ≤ blockScore b := by
  unfold blockScore
  dsimp only
  have hb2 : (b.endTime - b.startTime) * 2 ≤ (b.endTime - b.startTime) * bonuses b.category :=
    mul_le_mul_of_nonneg_left (bonuses_ge_two b.category) h
  split_ifs <;> nlinarith

theorem rawScore_nonneg (l : List TimeBlock) (h : ∀ b ∈ l, b.startTime ≤ b.endTime) :
    0 ≤ rawScore l := by
  rw [rawScore_eq_sum]
  apply List.sum_nonneg
  intro x hx
  obtain ⟨b, hb, rfl⟩ := List.mem_map.mp hx
  exact blockScore_nonneg b (by have := h b hb; linarith)

theorem totalTime_pos (l : List TimeBlock) (hne : l ≠ [])
    (h : ∀ b ∈ l, b.startTime < b.endTime) : 0 < totalTime l := by
  rw [totalTime_eq_sum]
  apply List.sum_pos
  · intro x hx
    obtain ⟨b, hb, rfl⟩ := List.mem_map.mp hx
    have := h b hb; linarith
  · simpa using hne

/-- Field projections of `analyzeSchedule`, read off the record. -/
theorem analyzeSchedule_gaps (blocks : List TimeBlock) :
    (analyzeSchedule blocks).gaps = findScheduleGaps blocks := rfl

theorem analyzeSchedule_workBlocks (blocks : List TimeBlock) :
    (analyzeSchedule blocks).workBlocks
      = blocks.filter (fun b => b.category = Category.work) := rfl

theorem analyzeSchedule_breakBlocks (blocks : List TimeBlock) :
    (analyzeSchedule blocks).breakBlocks
      = blocks.filter (fun b => b.category = Category.break') := rfl

theorem analyzeSchedule_productivityScore (blocks : List TimeBlock) :
    (analyzeSchedule blocks).productivityScore = calculateProductivityScore blocks := rfl

theorem analyzeSchedule_totalWorkTime (blocks : List TimeBlock) :
    (analyzeSchedule blocks).totalWorkTime =
      (analyzeSchedule blocks).workBlocks.foldl
        (fun s b => s + (b.endTime - b.startTime)) 0 := rfl

theorem analyzeSchedule_hasGaps (blocks : List TimeBlock) :
    (analyzeSchedule blocks).hasGaps = decide (0 < (findScheduleGaps blocks).length) := rfl

theorem analyzeSchedule_hasLongWorkBlocks (blocks : List TimeBlock) :
    (analyzeSchedule blocks).hasLongWorkBlocks =
      (analyzeSchedule blocks).workBlocks.any
        (fun b => decide (4 < b.endTime - b.startTime)) := rfl

theorem analyzeSchedule_needsEnergyOptimization (blocks : List TimeBlock) :
    (analyzeSchedule blocks).needsEnergyOptimization =
      (decide (8 < (analyzeSchedule blocks).totalWorkTime)
        || (analyzeSchedule blocks).hasLongWorkBlocks) := rfl

/-- `getFallbackSuggestions` written out as the five rule segments. -/
theorem getFallbackSuggestions_eq (blocks : List TimeBlock) :
    getFallbackSuggestions blocks =
      (if (analyzeSchedule blocks).hasGaps && decide (0 < (analyzeSchedule blocks).gaps.length)
        then [generateTimeBlockingSuggestion (analyzeSchedule blocks)] else []) ++
      (if decide (0 < (analyzeSchedule blocks).workBlocks.length)
          && decide ((analyzeSchedule blocks).breakBlocks.length < 2)
        then [generateBreakSuggestion (analyzeSchedule blocks)] else []) ++
      (if (analyzeSchedule blocks).needsEnergyOptimization
        then [generateEnergySuggestion (analyzeSchedule blocks)] else []) ++
      (if jsLtNum (analyzeSchedule blocks).productivityScore 70
        then [generateProductivitySuggestion (analyzeSchedule blocks)] else []) ++
      (if blocks.length = 0
        then [generateDailyPlanningSuggestion] else []) := rfl

/-- On the empty day, the low-score rule (score 0 < 70) and the empty-day
rule both fire, and no other rule does. -/
theorem emptyDay_suggestion_list : getFallbackSuggestions [] =
    [generateProductivitySuggestion (analyzeSchedule []), generateDailyPlanningSuggestion] := by
  rw [getFallbackSuggestions_eq]
  norm_num [analyzeSchedule_hasGaps, analyzeSchedule_gaps, analyzeSchedule_workBlocks,
    analyzeSchedule_breakBlocks, analyzeSchedule_needsEnergyOptimization,
    analyzeSchedule_hasLongWorkBlocks, analyzeSchedule_totalWorkTime,
    analyzeSchedule_productivityScore, findScheduleGaps, sortByStart, List.insertionSort,
    gapsOf, calculateProductivityScore, jsLtNum]

/-!
## Claim C1: suggestions for the empty day
-/

/-- Claim C1 counterexample: on the empty interval list the generator does not
return exactly one suggestion — it returns two, and one of them is the
low-score rule's `productivity` suggestion (the empty day scores 0 < 70). -/
theorem emptyDay_not_exactly_one_suggestion :
    (getFallbackSuggestions []).length = 2 ∧
    ∃ s ∈ getFallbackSuggestions [], s.type = SuggestionType.productivity := by
  rw [emptyDay_suggestion_list]
  exact ⟨rfl, generateProductivitySuggestion (analyzeSchedule []), by simp, rfl⟩

/-- Claim C1 as amended: on the empty interval list the generator returns
exactly two suggestions, the low-score `productivity` suggestion followed by
the `timeblocking` empty-day suggestion whose proposed blocks are precisely
the 4-block ideal-day template (work 9-11, break 12-13, work 14-16,
personal 19-20). -/
theorem emptyDay_two_suggestions :
    (getFallbackSuggestions []).map Suggestion.type =
      [SuggestionType.productivity, SuggestionType.timeblocking] ∧
    ((getFallbackSuggestions []).map fun s =>
        s.blocks.map fun b => (b.category, b.startTime, b.endTime)) =
      [[(Category.work, (9:ℚ), (11:ℚ)), (Category.exercise, 18, 19)],
       [(Category.work, 9, 11), (Category.break', 12, 13),
        (Category.work, 14, 16), (Category.personal, 19, 20)]] := by
  rw [emptyDay_suggestion_list]
  norm_num [generateProductivitySuggestion, generateDailyPlanningSuggestion]

/-!
## Claim C2: range and shape of the productivity score
-/

/-- Claim C2: for every interval list in which each interval has
`startTime < endTime`, `calculateProductivityScore` returns a finite integer
score in `[0, 100]` equal to the accumulated weighted score divided by the
total duration, times 10, rounded, clamped below at 0 and above at 100; and
the legacy `getProductivityScore` is also always within `[0, 100]`. -/
theorem productivityScore_in_range (l : List TimeBlock)
    (h : ∀ b ∈ l, b.startTime < b.endTime) :
    (∃ s : ℤ, calculateProductivityScore l = some s ∧ 0 ≤ s ∧ s ≤ 100 ∧
      s = max 0 (min 100 (jsRound (rawScore l / totalTime l * 10)))) ∧
    0 ≤ getProductivityScore l ∧ getProductivityScore l ≤ 100 := by
  have hrange : 0 ≤ getProductivityScore l ∧ getProductivityScore l ≤ 100 := by
    unfold getProductivityScore
    split_ifs
    · exact ⟨le_refl 0, by norm_num⟩
    · constructor
      · exact le_min (by norm_num) (le_max_left 0 _)
      · exact min_le_left _ _
  refine ⟨?_, hrange⟩
  have hjz : jsRound (0 : ℚ) = 0 := jsRound_eq (by norm_num) (by norm_num)
  rcases eq_or_ne l [] with rfl | hne
  · refine ⟨0, rfl, le_refl 0, by norm_num, ?_⟩
    have hr : rawScore [] = 0 := rfl
    have ht : totalTime [] = 0 := rfl
    rw [hr, ht]
    norm_num [hjz]
  · have hT : 0 < totalTime l := totalTime_pos l hne h
    have hS : 0 ≤ rawScore l := rawScore_nonneg l fun b hb => le_of_lt (h b hb)
    have hjr : 0 ≤ jsRound (rawScore l / totalTime l * 10) :=
      jsRound_nonneg (by positivity)
    have hlen : ¬ (l.length = 0) := by simpa [List.length_eq_zero] using hne
    have heval : calculateProductivityScore l
        = some (min 100 (jsRound (rawScore l / totalTime l * 10))) := by
      unfold calculateProductivityScore
      rw [if_neg hlen, if_neg hT.ne']
    refine ⟨min 100 (jsRound (rawScore l / totalTime l * 10)), heval, ?_,
      min_le_left _ _, ?_⟩
    · exact le_min (by norm_num) hjr
    · exact (max_eq_right (le_min (by norm_num) hjr)).symm

/-- Witness for claim C2 at the single block work 9-11. -/
theorem productivityScore_in_range_witness :
    (∀ b ∈ [(⟨"Deep Work", Category.work, 9, 11, ""⟩ : TimeBlock)],
      b.startTime < b.endTime) ∧
    ((∃ s : ℤ,
        calculateProductivityScore [(⟨"Deep Work", Category.work, 9, 11, ""⟩ : TimeBlock)]
          = some s ∧ 0 ≤ s ∧ s ≤ 100 ∧
        s = max 0 (min 100 (jsRound
          (rawScore [(⟨"Deep Work", Category.work, 9, 11, ""⟩ : TimeBlock)]
            / totalTime [(⟨"Deep Work", Category.work, 9, 11, ""⟩ : TimeBlock)] * 10)))) ∧
      0 ≤ getProductivityScore [(⟨"Deep Work", Category.work, 9, 11, ""⟩ : TimeBlock)] ∧
      getProductivityScore [(⟨"Deep Work", Category.work, 9, 11, ""⟩ : TimeBlock)] ≤ 100) :=
  ⟨by norm_num, productivityScore_in_range _ (by norm_num)⟩

/-!
## Claim C3: the two scorer implementations
-/

/-- Claim C3 counterexample: the two scorers disagree on a single long
meeting block — `calculateProductivityScore` grants meeting blocks a bonus of
4 per hour and reaches the 100 cap, while `getProductivityScore` grants
meetings nothing and returns 63. -/
theorem scorers_differ_on_meeting :
    getProductivityScore exMeeting = 63 ∧
    calculateProductivityScore exMeeting = some 100 ∧
    calculateProductivityScore exMeeting ≠ some (getProductivityScore exMeeting) := by
  have htu : tuScore exMeeting = 100 := by
    simp [tuScore, tuScore1, tuBaseContrib, tuPenalty, calculateDuration, exMeeting]
    all_goals norm_num
  have httot : tuTotalTime exMeeting = 16 := by
    norm_num [tuTotalTime, calculateDuration, exMeeting]
  have hm16 : max (16 : ℚ) 1 = 16 := by norm_num
  have hjr1 : jsRound (tuScore exMeeting / max (tuTotalTime exMeeting) 1 * 10) = 63 := by
    rw [htu, httot, hm16]; exact jsRound_eq (by norm_num) (by norm_num)
  have hlen : ¬ (exMeeting.length = 0) := by norm_num [exMeeting]
  have h1 : getProductivityScore exMeeting = 63 := by
    unfold getProductivityScore
    rw [if_neg hlen, hjr1]
    norm_num
  have hraw : rawScore exMeeting = 164 := by norm_num [rawScore, blockScore, bonuses, exMeeting]
  have htot : totalTime exMeeting = 16 := by norm_num [totalTime, exMeeting]
  have hjr2 : jsRound (rawScore exMeeting / totalTime exMeeting * 10) = 103 := by
    rw [hraw, htot]; exact jsRound_eq (by norm_num) (by norm_num)
  have h2 : calculateProductivityScore exMeeting = some 100 := by
    unfold calculateProductivityScore
    rw [if_neg hlen, if_neg (by rw [htot]; norm_num), hjr2]
    norm_num
  exact ⟨h1, h2, by rw [h1, h2]; norm_num⟩

/-- One block's contribution is the same in both scorers when the block is
neither a meeting nor personal and, if it is work, does not start in the
closed peak range `[9, 11]`. -/
theorem blockScore_eq_tu (b : TimeBlock)
    (hm : b.category ≠ Category.meeting) (hp : b.category ≠ Category.personal)
    (hw : b.category = Category.work → b.startTime < 9 ∨ 11 < b.startTime) :
    blockScore b = tuBaseContrib b - tuPenalty b := by
  unfold blockScore tuBaseContrib tuPenalty calculateDuration
  dsimp only
  cases hcat : b.category with
  | work =>
    have hpk : ¬ (9 ≤ b.startTime ∧ b.startTime ≤ 11) := by
      rcases hw hcat with h | h
      · rintro ⟨h9, -⟩; linarith
      · rintro ⟨-, h11⟩; linarith
    simp [hcat, bonuses, hpk]
  | meeting => exact absurd hcat hm
  | break' => simp [hcat, bonuses]
  | personal => exact absurd hcat hp
  | exercise => simp [hcat, bonuses]
  | learning => simp [hcat, bonuses]

/-- Claim C3 as amended: the two scorers are not the same function (see
`scorers_differ_on_meeting`), but they agree on every list with no meeting or
personal block, no work block starting in the closed peak range `[9, 11]`,
every block satisfying `startTime ≤ endTime`, and total duration at least one
hour. -/
theorem scorers_agree_on_common_domain (l : List TimeBlock)
    (hcat : ∀ b ∈ l, b.category ≠ Category.meeting ∧ b.category ≠ Category.personal)
    (hpeak : ∀ b ∈ l, b.category = Category.work → b.startTime < 9 ∨ 11 < b.startTime)
    (hdur : ∀ b ∈ l, b.startTime ≤ b.endTime)
    (htot : 1 ≤ totalTime l) :
    calculateProductivityScore l = some (getProductivityScore l) := by
  have hne : l ≠ [] := by rintro rfl; norm_num [totalTime] at htot
  have hlen : ¬ (l.length = 0) := by simpa [List.length_eq_zero] using hne
  have hTpos : 0 < totalTime l := lt_of_lt_of_le one_pos htot
  have hSeq : tuScore l = rawScore l := by
    rw [tuScore_eq_sum, rawScore_eq_sum, ← sum_map_sub]
    exact (sum_map_congr l fun b hb =>
      blockScore_eq_tu b (hcat b hb).1 (hcat b hb).2 (hpeak b hb)).symm
  have hS0 : 0 ≤ rawScore l := rawScore_nonneg l hdur
  have hjr0 : 0 ≤ jsRound (rawScore l / totalTime l * 10) := jsRound_nonneg (by positivity)
  have hmax : max (totalTime l) 1 = totalTime l := max_eq_left htot
  have hG : getProductivityScore l = min 100 (jsRound (rawScore l / totalTime l * 10)) := by
    unfold getProductivityScore
    rw [if_neg hlen, tuTotalTime_eq, hmax, hSeq, max_eq_right hjr0]
  have hC : calculateProductivityScore l
      = some (min 100 (jsRound (rawScore l / totalTime l * 10))) := by
    unfold calculateProductivityScore
    rw [if_neg hlen, if_neg hTpos.ne']
  rw [hC, hG]

/-- Witness for the amended claim C3 at a single midday work block. -/
theorem scorers_agree_on_common_domain_witness :
    ((∀ b ∈ [(⟨"Midday Work", Category.work, 12, 14, ""⟩ : TimeBlock)],
        b.category ≠ Category.meeting ∧ b.category ≠ Category.personal) ∧
     (∀ b ∈ [(⟨"Midday Work", Category.work, 12, 14, ""⟩ : TimeBlock)],
        b.category = Category.work → b.startTime < 9 ∨ 11 < b.startTime) ∧
     (∀ b ∈ [(⟨"Midday Work", Category.work, 12, 14, ""⟩ : TimeBlock)],
        b.startTime ≤ b.endTime) ∧
     1 ≤ totalTime [(⟨"Midday Work", Category.work, 12, 14, ""⟩ : TimeBlock)]) ∧
    calculateProductivityScore [(⟨"Midday Work", Category.work, 12, 14, ""⟩ : TimeBlock)]
      = some (getProductivityScore [(⟨"Midday Work", Category.work, 12, 14, ""⟩ : TimeBlock)]) :=
  ⟨⟨by decide, by decide, by decide, by norm_num [totalTime]⟩,
    scorers_agree_on_common_domain _ (by decide) (by decide) (by decide)
      (by norm_num [totalTime])⟩

/-!
## Claim C4: zero total duration
-/

/-- Claim C4, evaluated at the failing input: on a non-empty list whose total
duration is zero, `calculateProductivityScore` performs the JavaScript
division `0 / 0` and yields NaN (modelled as `none`) instead of the score 0
the spec requires, while the legacy `getProductivityScore` guards the
denominator with `Math.max(totalTime, 1)` and returns 0 as specified. -/
theorem zeroDuration_score_divergence :
    calculateProductivityScore [⟨"w", Category.work, 9, 9, ""⟩] = none ∧
    getProductivityScore [⟨"w", Category.work, 9, 9, ""⟩] = 0 := by
  have hjr : jsRound (0 : ℚ) = 0 := jsRound_eq (by norm_num) (by norm_num)
  constructor
  · norm_num [calculateProductivityScore, totalTime]
  · norm_num [getProductivityScore, tuScore, tuScore1, tuTotalTime, tuBaseContrib,
      tuPenalty, calculateDuration, hjr]

/-!
## Claim C5: the peak-focus bonus boundary
-/

theorem blockScore_split (b : TimeBlock) :
    blockScore b = blockScoreNoPeak b + peakFocusBonus b := by
  unfold blockScore blockScoreNoPeak peakFocusBonus
  split_ifs <;> ring

/-- Claim C5 counterexample: a work interval starting exactly at 11 does
receive the peak bonus in the source (`startTime <= 11` is a closed bound):
the implemented scorer returns 88 on `exC5` while the spec's half-open
`[9, 11)` reading predicts 86. -/
theorem peak_bonus_granted_at_eleven :
    calculateProductivityScore exC5 = some 88 ∧
    calculateProductivityScoreHalfOpenPeak exC5 = some 86 ∧
    calculateProductivityScore exC5 ≠ calculateProductivityScoreHalfOpenPeak exC5 := by
  have hraw : rawScore exC5 = 150 := by norm_num [rawScore, blockScore, bonuses, exC5]
  have hrawH : rawScoreHalfOpenPeak exC5 = 147 := by
    norm_num [rawScoreHalfOpenPeak, blockScoreHalfOpenPeak, bonuses, exC5]
  have htot : totalTime exC5 = 17 := by norm_num [totalTime, exC5]
  have hjr : jsRound (rawScore exC5 / totalTime exC5 * 10) = 88 := by
    rw [hraw, htot]; exact jsRound_eq (by norm_num) (by norm_num)
  have hjrH : jsRound (rawScoreHalfOpenPeak exC5 / totalTime exC5 * 10) = 86 := by
    rw [hrawH, htot]; exact jsRound_eq (by norm_num) (by norm_num)
  have hlen : exC5.length = 2 := rfl
  have htne : ¬ (totalTime exC5 = 0) := by rw [htot]; norm_num
  have h1 : calculateProductivityScore exC5 = some 88 := by
    norm_num [calculateProductivityScore, hlen, htne, hjr]
  have h2 : calculateProductivityScoreHalfOpenPeak exC5 = some 86 := by
    norm_num [calculateProductivityScoreHalfOpenPeak, hlen, htne, hjrH]
  exact ⟨h1, h2, by rw [h1, h2]; norm_num⟩

/-- Claim C5 as amended: the accumulated score is the bonus-free score plus,
for each block, the `peakFocusBonus` term, which is `3 × duration` exactly
when the block is work and its start lies in the closed range `[9, 11]`, and
0 otherwise. -/
theorem rawScore_peak_decomposition (l : List TimeBlock) :
    rawScore l = rawScoreNoPeak l + (l.map peakFocusBonus).sum := by
  rw [rawScore_eq_sum, rawScoreNoPeak_eq_sum, ← sum_map_add]
  exact sum_map_congr l fun b _ => blockScore_split b

/-!
## Claim C6: the three-block scenario
-/

theorem ex6_gaps : findScheduleGaps ex6 = [⟨11, 12, 1⟩, ⟨12.5, 14, 1.5⟩] := by
  norm_num [findScheduleGaps, sortByStart, List.insertionSort, List.orderedInsert, gapsOf, ex6]

theorem ex6_score : calculateProductivityScore ex6 = some 100 := by
  have hraw : rawScore ex6 = 205/2 := by norm_num [rawScore, blockScore, bonuses, ex6]
  have htot : totalTime ex6 = 13/2 := by norm_num [totalTime, ex6]
  have hjr : jsRound (rawScore ex6 / totalTime ex6 * 10) = 158 := by
    rw [hraw, htot]; exact jsRound_eq (by norm_num) (by norm_num)
  have hlen : ex6.length = 3 := rfl
  have htne : ¬ (totalTime ex6 = 0) := by rw [htot]; norm_num
  norm_num [calculateProductivityScore, hlen, htne, hjr]

theorem ex6_suggestions : getFallbackSuggestions ex6 =
    [generateTimeBlockingSuggestion (analyzeSchedule ex6),
     generateBreakSuggestion (analyzeSchedule ex6)] := by
  have hwork : (analyzeSchedule ex6).workBlocks =
      [⟨"Morning Work", Category.work, 9, 11, ""⟩,
       ⟨"Afternoon Work", Category.work, 14, 18, ""⟩] := rfl
  have hbrk : (analyzeSchedule ex6).breakBlocks =
      [⟨"Break", Category.break', 12, 12.5, ""⟩] := rfl
  have h1 : (analyzeSchedule ex6).hasGaps = true := by
    rw [analyzeSchedule_hasGaps, ex6_gaps]; rfl
  have h4 : jsLtNum (analyzeSchedule ex6).productivityScore 70 = false := by
    rw [analyzeSchedule_productivityScore, ex6_score]; rfl
  have htw : (analyzeSchedule ex6).totalWorkTime = 6 := by
    rw [analyzeSchedule_totalWorkTime, hwork]; norm_num
  have h3 : (analyzeSchedule ex6).needsEnergyOptimization = false := by
    rw [analyzeSchedule_needsEnergyOptimization, analyzeSchedule_hasLongWorkBlocks, htw, hwork]
    norm_num
  have hlen : ex6.length = 3 := rfl
  rw [getFallbackSuggestions_eq, h1, h4, h3, analyzeSchedule_gaps, ex6_gaps, hwork, hbrk]
  norm_num [hlen]

/-- Claim C6: on work 9-11, break 12-12.5, work 14-18 the gap finder returns
exactly the gaps 11-12 (1h) and 12.5-14 (1.5h) in that order; there is one
break block, so the break-coverage rule's `timeblocking` suggestion appears;
total work is 6 hours and no work block exceeds 4 hours, so the energy rule's
`balance` suggestion does not appear. -/
theorem scenario_three_blocks :
    findScheduleGaps ex6 = [⟨11, 12, 1⟩, ⟨12.5, 14, 1.5⟩] ∧
    (analyzeSchedule ex6).breakBlocks.length = 1 ∧
    (∃ s ∈ getFallbackSuggestions ex6,
      s.type = SuggestionType.timeblocking ∧ s.title = "Add Strategic Breaks") ∧
    (∀ s ∈ getFallbackSuggestions ex6, s.type ≠ SuggestionType.balance) ∧
    (analyzeSchedule ex6).totalWorkTime = 6 ∧
    (analyzeSchedule ex6).needsEnergyOptimization = false := by
  refine ⟨ex6_gaps, rfl,
    ⟨generateBreakSuggestion (analyzeSchedule ex6), by simp [ex6_suggestions], rfl, rfl⟩,
    ?_, ?_, ?_⟩
  · intro s hs
    rw [ex6_suggestions] at hs
    simp only [List.mem_cons, List.not_mem_nil, or_false] at hs
    rcases hs with rfl | rfl
    · simp [generateTimeBlockingSuggestion]
    · simp [generateBreakSuggestion]
  · rw [analyzeSchedule_totalWorkTime,
      show (analyzeSchedule ex6).workBlocks =
        [⟨"Morning Work", Category.work, 9, 11, ""⟩,
         ⟨"Afternoon Work", Category.work, 14, 18, ""⟩] from rfl]
    norm_num
  · rw [analyzeSchedule_needsEnergyOptimization, analyzeSchedule_hasLongWorkBlocks,
      analyzeSchedule_totalWorkTime,
      show (analyzeSchedule ex6).workBlocks =
        [⟨"Morning Work", Category.work, 9, 11, ""⟩,
         ⟨"Afternoon Work", Category.work, 14, 18, ""⟩] from rfl]
    norm_num

/-!
## Claim C7: shape of the gaps
-/

theorem gapsOf_mem_spec :
    ∀ (m : List TimeBlock) (g : Gap), g ∈ gapsOf m →
      1 ≤ g.duration ∧ g.duration = g.«end» - g.start ∧
      ∃ pre a b post, m = pre ++ a :: b :: post ∧ g.start = a.endTime ∧ g.«end» = b.startTime := by
  intro m
  induction m with
  | nil => intro g hg; simp [gapsOf] at hg
  | cons a t ih =>
    cases t with
    | nil => intro g hg; simp [gapsOf] at hg
    | cons b rest =>
      intro g hg
      simp only [gapsOf] at hg
      rcases List.mem_append.mp hg with h1 | h2
      · by_cases hc : 1 ≤ b.startTime - a.endTime
        · rw [if_pos hc] at h1
          simp only [List.mem_singleton] at h1
          subst h1
          exact ⟨hc, rfl, [], a, b, rest, rfl, rfl, rfl⟩
        · rw [if_neg hc] at h1
          simp at h1
      · obtain ⟨hd1, hd2, pre, a', b', post, heq, hs, he⟩ := ih g h2
        exact ⟨hd1, hd2, a :: pre, a', b', post, by rw [heq]; rfl, hs, he⟩

/-- Claim C7: for a list of valid intervals (start < end), every returned gap
lasts at least one hour, spans exactly the time between two consecutive
blocks of the start-time-sorted input, and lies between some block's start
and some block's end — never before the earliest start or after the latest
end. -/
theorem findScheduleGaps_spec (l : List TimeBlock)
    (hv : ∀ b ∈ l, b.startTime < b.endTime) :
    ∀ g ∈ findScheduleGaps l,
      1 ≤ g.duration ∧ g.duration = g.«end» - g.start ∧
      (∃ pre a b post, sortByStart l = pre ++ a :: b :: post ∧
        g.start = a.endTime ∧ g.«end» = b.startTime) ∧
      (∃ b ∈ l, b.startTime ≤ g.start) ∧ (∃ b ∈ l, g.«end» ≤ b.endTime) := by
  intro g hg
  obtain ⟨h1, hdur, pre, a, b, post, heq, hs, he⟩ := gapsOf_mem_spec (sortByStart l) g hg
  have ha : a ∈ l := by
    have hmem : a ∈ sortByStart l := by rw [heq]; simp
    simpa [sortByStart, List.mem_insertionSort] using hmem
  have hb : b ∈ l := by
    have hmem : b ∈ sortByStart l := by rw [heq]; simp
    simpa [sortByStart, List.mem_insertionSort] using hmem
  refine ⟨h1, hdur, ⟨pre, a, b, post, heq, hs, he⟩, ⟨a, ha, ?_⟩, ⟨b, hb, ?_⟩⟩
  · rw [hs]; exact le_of_lt (hv a ha)
  · rw [he]; exact le_of_lt (hv b hb)

/-- Witness for claim C7 at the three-block scenario input. -/
theorem findScheduleGaps_spec_witness :
    (∀ b ∈ ex6, b.startTime < b.endTime) ∧
    ∀ g ∈ findScheduleGaps ex6,
      1 ≤ g.duration ∧ g.duration = g.«end» - g.start ∧
      (∃ pre a b post, sortByStart ex6 = pre ++ a :: b :: post ∧
        g.start = a.endTime ∧ g.«end» = b.startTime) ∧
      (∃ b ∈ ex6, b.startTime ≤ g.start) ∧ (∃ b ∈ ex6, g.«end» ≤ b.endTime) :=
  ⟨by norm_num [ex6], findScheduleGaps_spec ex6 (by norm_num [ex6])⟩

/-!
## Claim C8: the engine does not modify the caller's array
-/

/-- Claim C8: in the store-passing reading of the three entry points, the
array handed back to the caller is the input list itself, element for element
and in order, and the computed results agree with the pure definitions. -/
theorem engine_preserves_caller_blocks (l : List TimeBlock) :
    (findScheduleGapsSt l).2 = l ∧ (calculateProductivityScoreSt l).2 = l ∧
    (getFallbackSuggestionsSt l).2 = l ∧
    (findScheduleGapsSt l).1 = findScheduleGaps l ∧
    (calculateProductivityScoreSt l).1 = calculateProductivityScore l ∧
    (getFallbackSuggestionsSt l).1 = getFallbackSuggestions l :=
  ⟨rfl, rfl, rfl, rfl, rfl, rfl⟩

/-!
## Claim C9: order dependence of the break suggestion
-/

theorem l9a_gaps : findScheduleGaps l9a = [⟨11, 14, 3⟩] := by
  norm_num [findScheduleGaps, sortByStart, List.insertionSort, List.orderedInsert, gapsOf, l9a]

theorem l9b_gaps : findScheduleGaps l9b = [⟨11, 14, 3⟩] := by
  norm_num [findScheduleGaps, sortByStart, List.insertionSort, List.orderedInsert, gapsOf, l9b]

theorem l9a_score : calculateProductivityScore l9a = some 100 := by
  have hraw : rawScore l9a = 66 := by norm_num [rawScore, blockScore, bonuses, l9a]
  have htot : totalTime l9a = 4 := by norm_num [totalTime, l9a]
  have hjr : jsRound (rawScore l9a / totalTime l9a * 10) = 165 := by
    rw [hraw, htot]; exact jsRound_eq (by norm_num) (by norm_num)
  have hlen : l9a.length = 2 := rfl
  have htne : ¬ (totalTime l9a = 0) := by rw [htot]; norm_num
  norm_num [calculateProductivityScore, hlen, htne, hjr]

theorem l9b_score : calculateProductivityScore l9b = some 100 := by
  have hraw : rawScore l9b = 66 := by norm_num [rawScore, blockScore, bonuses, l9b]
  have htot : totalTime l9b = 4 := by norm_num [totalTime, l9b]
  have hjr : jsRound (rawScore l9b / totalTime l9b * 10) = 165 := by
    rw [hraw, htot]; exact jsRound_eq (by norm_num) (by norm_num)
  have hlen : l9b.length = 2 := rfl
  have htne : ¬ (totalTime l9b = 0) := by rw [htot]; norm_num
  norm_num [calculateProductivityScore, hlen, htne, hjr]

theorem l9a_suggestions : getFallbackSuggestions l9a =
    [generateTimeBlockingSuggestion (analyzeSchedule l9a),
     generateBreakSuggestion (analyzeSchedule l9a)] := by
  have hwork : (analyzeSchedule l9a).workBlocks = l9a := rfl
  have hbrk : (analyzeSchedule l9a).breakBlocks = [] := rfl
  have h1 : (analyzeSchedule l9a).hasGaps = true := by
    rw [analyzeSchedule_hasGaps, l9a_gaps]; rfl
  have h4 : jsLtNum (analyzeSchedule l9a).productivityScore 70 = false := by
    rw [analyzeSchedule_productivityScore, l9a_score]; rfl
  have htw : (analyzeSchedule l9a).totalWorkTime = 4 := by
    rw [analyzeSchedule_totalWorkTime, hwork]; norm_num [l9a]
  have h3 : (analyzeSchedule l9a).needsEnergyOptimization = false := by
    rw [analyzeSchedule_needsEnergyOptimization, analyzeSchedule_hasLongWorkBlocks, htw, hwork]
    norm_num [l9a]
  have hlen : l9a.length = 2 := rfl
  rw [getFallbackSuggestions_eq, h1, h4, h3, analyzeSchedule_gaps, l9a_gaps, hwork, hbrk]
  norm_num [hlen]

theorem l9b_suggestions : getFallbackSuggestions l9b =
    [generateTimeBlockingSuggestion (analyzeSchedule l9b),
     generateBreakSuggestion (analyzeSchedule l9b)] := by
  have hwork : (analyzeSchedule l9b).workBlocks = l9b := rfl
  have hbrk : (analyzeSchedule l9b).breakBlocks = [] := rfl
  have h1 : (analyzeSchedule l9b).hasGaps = true := by
    rw [analyzeSchedule_hasGaps, l9b_gaps]; rfl
  have h4 : jsLtNum (analyzeSchedule l9b).productivityScore 70 = false := by
    rw [analyzeSchedule_productivityScore, l9b_score]; rfl
  have htw : (analyzeSchedule l9b).totalWorkTime = 4 := by
    rw [analyzeSchedule_totalWorkTime, hwork]; norm_num [l9b]
  have h3 : (analyzeSchedule l9b).needsEnergyOptimization = false := by
    rw [analyzeSchedule_needsEnergyOptimization, analyzeSchedule_hasLongWorkBlocks, htw, hwork]
    norm_num [l9b]
  have hlen : l9b.length = 2 := rfl
  rw [getFallbackSuggestions_eq, h1, h4, h3, analyzeSchedule_gaps, l9b_gaps, hwork, hbrk]
  norm_num [hlen]

/-- Claim C9: the generator depends on input order, not just on the set of
intervals — `l9a` and `l9b` hold the same two work blocks in different
orders, yet the proposed coffee break starts at 16.5 for `l9a` (first listed
work block ends at 16) and at 11.5 for `l9b` (first listed work block ends at
11), so the two suggestion lists differ. -/
theorem suggestions_order_dependent :
    List.Perm l9a l9b ∧
    ((getFallbackSuggestions l9a)[1]?.map fun s => s.blocks.map fun b => b.startTime)
      = some [33/2] ∧
    ((getFallbackSuggestions l9b)[1]?.map fun s => s.blocks.map fun b => b.startTime)
      = some [23/2] ∧
    getFallbackSuggestions l9a ≠ getFallbackSuggestions l9b := by
  have ha : ((getFallbackSuggestions l9a)[1]?.map fun s => s.blocks.map fun b => b.startTime)
      = some [33/2] := by
    rw [l9a_suggestions]
    norm_num [generateBreakSuggestion,
      show (analyzeSchedule l9a).workBlocks =
        [⟨"Late Work", Category.work, 14, 16, ""⟩,
         ⟨"Early Work", Category.work, 9, 11, ""⟩] from rfl]
  have hb : ((getFallbackSuggestions l9b)[1]?.map fun s => s.blocks.map fun b => b.startTime)
      = some [23/2] := by
    rw [l9b_suggestions]
    norm_num [generateBreakSuggestion,
      show (analyzeSchedule l9b).workBlocks =
        [⟨"Early Work", Category.work, 9, 11, ""⟩,
         ⟨"Late Work", Category.work, 14, 16, ""⟩] from rfl]
  refine ⟨by decide, ha, hb, fun h => ?_⟩
  have hcg := congrArg (fun r : List Suggestion =>
    r[1]?.map fun s => s.blocks.map fun b => b.startTime) h
  dsimp only at hcg
  rw [ha, hb] at hcg
  norm_num at hcg

/-!
## Claim C10: small gaps still produce an optimization suggestion
-/

theorem foldl_largestGap_lt (c : ℚ) :
    ∀ (gs : List Gap) (m : Gap), m.duration < c → (∀ g ∈ gs, g.duration < c) →
      (List.foldl (fun m gap => if gap.duration > m.duration then gap else m) m gs).duration < c := by
  intro gs
  induction gs with
  | nil => intro m hm _; simpa using hm
  | cons g t ih =>
    intro m hm hall
    rw [List.foldl_cons]
    by_cases h : g.duration > m.duration
    · rw [if_pos h]
      exact ih g (hall g (by simp)) fun x hx => hall x (by simp [hx])
    · rw [if_neg h]
      exact ih m hm fun x hx => hall x (by simp [hx])

/-- Claim C10: whenever the gap finder returns a non-empty list in which every
gap lasts less than two hours, the generator still emits an `optimization`
suggestion, and that suggestion proposes no blocks. -/
theorem small_gap_empty_optimization (l : List TimeBlock)
    (h1 : findScheduleGaps l ≠ [])
    (h2 : ∀ g ∈ findScheduleGaps l, g.duration < 2) :
    ∃ s ∈ getFallbackSuggestions l,
      s.type = SuggestionType.optimization ∧ s.blocks = [] := by
  refine ⟨generateTimeBlockingSuggestion (analyzeSchedule l), ?_, rfl, ?_⟩
  · have hc : ((analyzeSchedule l).hasGaps
        && decide (0 < (analyzeSchedule l).gaps.length)) = true := by
      rw [analyzeSchedule_hasGaps, analyzeSchedule_gaps]
      have hp : 0 < (findScheduleGaps l).length := List.length_pos.mpr h1
      simp [hp]
    rw [getFallbackSuggestions_eq, hc]
    simp
  · obtain ⟨g0, gs, hg⟩ := List.exists_cons_of_ne_nil h1
    set L := (analyzeSchedule l).gaps.foldl
      (fun m gap => if gap.duration > m.duration then gap else m)
      ((analyzeSchedule l).gaps.headD ⟨0, 0, 0⟩) with hL
    have hblocks : (generateTimeBlockingSuggestion (analyzeSchedule l)).blocks =
        (if 2 ≤ L.duration then
          [⟨"Deep Work Block", Category.work, L.start, L.start + 2,
            "Use this time for focused, uninterrupted work"⟩] else []) ++
        (if 3 ≤ L.duration then
          [⟨"Learning Time", Category.learning, L.start + 2, L.start + 3,
            "Dedicated time for skill development"⟩] else []) := rfl
    have hlt : L.duration < 2 := by
      rw [hL, analyzeSchedule_gaps, hg]
      have hd0 : ((g0 :: gs).headD (⟨0, 0, 0⟩ : Gap)) = g0 := rfl
      rw [hd0]
      exact foldl_largestGap_lt 2 (g0 :: gs) g0
        (h2 g0 (by rw [hg]; simp))
        (fun x hx => h2 x (by rw [hg]; exact hx))
    rw [hblocks, if_neg (by linarith), if_neg (by linarith)]
    rfl

/-- Witness for claim C10: two work blocks separated by a 1.5-hour gap. -/
theorem small_gap_empty_optimization_witness :
    (findScheduleGaps [(⟨"First", Category.work, 9, 10, ""⟩ : TimeBlock),
        ⟨"Second", Category.work, 11.5, 13, ""⟩] ≠ [] ∧
      ∀ g ∈ findScheduleGaps [(⟨"First", Category.work, 9, 10, ""⟩ : TimeBlock),
        ⟨"Second", Category.work, 11.5, 13, ""⟩], g.duration < 2) ∧
    ∃ s ∈ getFallbackSuggestions [(⟨"First", Category.work, 9, 10, ""⟩ : TimeBlock),
        ⟨"Second", Category.work, 11.5, 13, ""⟩],
      s.type = SuggestionType.optimization ∧ s.blocks = [] :=
  ⟨⟨by norm_num [findScheduleGaps, sortByStart, List.insertionSort, List.orderedInsert, gapsOf],
    by norm_num [findScheduleGaps, sortByStart, List.insertionSort, List.orderedInsert, gapsOf]⟩,
    small_gap_empty_optimization _
      (by norm_num [findScheduleGaps, sortByStart, List.insertionSort, List.orderedInsert, gapsOf])
      (by norm_num [findScheduleGaps, sortByStart, List.insertionSort, List.orderedInsert, gapsOf])⟩
